import Mathlib

/-!
Shallow embedding of the Snowflake-to-DuckDB pipeline (`src/data_pipeline.py`)
and the configuration constants it uses (`src/config.py`).

Modelling choices, kept as close to the Python as Lean allows:
* cell values and error messages are strings;
* a `DictCursor` row is an association list of column name to value;
* a pandas `DataFrame` is a column list plus a row-major list of value rows,
  and `DataFrame.empty` is true when either axis has length zero;
* the DuckDB database file is a `DuckStore`: named tables plus registered
  views (the staging bindings created by `register`/`unregister`);
* `DataPipeline`'s mutable fields (`snowflake_conn`, `duckdb_conn`) and the
  module-level logger become the explicit state `PState`;
* the behaviour of the external world (the Snowflake connector's two connect
  attempts, `SHOW TABLES`, query execution, and DuckDB statement failures)
  is a `World` parameter; a `some msg` field means the corresponding call
  raises an exception with that message;
* a Python function that can raise returns `Except String α`; one returning
  a bool returns `Bool`.
-/

/-- Log severity used by the module logger. -/
inductive LogLevel where
  | info
  | warning
  | err
deriving DecidableEq, Repr

/-- One record emitted by the module logger. -/
structure LogEntry where
  level : LogLevel
  msg : String
deriving DecidableEq, Repr

/-- A `DictCursor` row: column name paired with the cell value. -/
abbrev Row := List (String × String)

/-- A pandas DataFrame: the column labels and the rows (row-major values). -/
structure DataFrame where
  columns : List String
  rows : List (List String)
deriving DecidableEq, Repr

/-- pandas `DataFrame.empty`: true when any axis has length zero. -/
def DataFrame.isEmpty (df : DataFrame) : Bool :=
  df.rows.isEmpty || df.columns.isEmpty

/-- Python `pd.DataFrame()`: the fully empty frame. -/
def DataFrame.emptyDf : DataFrame := ⟨[], []⟩

/-- Python `pd.DataFrame(results)` for a list of uniform cursor dict-rows: columns
are the first row's keys, rows are the value lists. The empty list gives the
fully empty frame. -/
def toDataFrame : List Row → DataFrame
  | [] => DataFrame.emptyDf
  | r :: rs => ⟨r.map Prod.fst, (r :: rs).map (fun d => d.map Prod.snd)⟩

/-- Contents of the DuckDB database file: named tables, plus the in-session
registered views (staging bindings). -/
structure DuckStore where
  tables : List (String × DataFrame)
  views : List (String × DataFrame)
deriving DecidableEq, Repr

/-- Models `DROP TABLE IF EXISTS name`. -/
def DuckStore.dropTable (s : DuckStore) (n : String) : DuckStore :=
  { s with tables := s.tables.filter (fun p => p.1 != n) }

/-- Models `conn.register(name, df)`: bind an in-memory frame as a queryable view. -/
def DuckStore.registerView (s : DuckStore) (n : String) (df : DataFrame) : DuckStore :=
  { s with views := (n, df) :: s.views }

/-- Models `conn.unregister(name)`: release a staging binding. -/
def DuckStore.unregisterView (s : DuckStore) (n : String) : DuckStore :=
  { s with views := s.views.filter (fun p => p.1 != n) }

/-- Resolve a view name in the catalog. -/
def DuckStore.lookupView (s : DuckStore) (n : String) : Option DataFrame :=
  s.views.lookup n

/-- Resolve a table name in the catalog. -/
def DuckStore.lookupTable (s : DuckStore) (n : String) : Option DataFrame :=
  s.tables.lookup n

/-- Models `SELECT COUNT(*) FROM n`: row count of the named table, `none` when the
table does not exist. -/
def DuckStore.countStar (s : DuckStore) (n : String) : Option Nat :=
  (s.lookupTable n).map (fun df => df.rows.length)

/-- Behaviour of the external collaborators during one pipeline run. A field
of value `some msg` means that call raises an exception with message `msg`. -/
structure World where
  /-- Outcome of `snowflake.connector.connect` with SSL verification. -/
  secureConnect : Option String
  /-- Outcome of `snowflake.connector.connect` with `insecure_mode=True`. -/
  insecureConnect : Option String
  /-- Outcome of `duckdb.connect(Config.DUCKDB_PATH)`. -/
  localConnect : Option String
  /-- Outcome of the `SHOW TABLES IN SCHEMA db.schema` call: raw result rows, or a
  raised error. -/
  showTables : Except String (List (List String))
  /-- Outcome of executing a read query on Snowflake: `DictCursor` rows, or a
  raised error. -/
  runQuery : String → Except String (List Row)
  /-- When `some msg`, the first DuckDB `execute` of the load raises `msg`. -/
  localExec : Option String

/-- Mutable state of a `DataPipeline` object together with the DuckDB file
contents and the log: `snowflakeConn`/`duckdbConn` record whether
`self.snowflake_conn`/`self.duckdb_conn` hold open connections. -/
structure PState where
  snowflakeConn : Bool
  duckdbConn : Bool
  store : DuckStore
  log : List LogEntry
deriving DecidableEq, Repr

/-- Append an info record to the log. -/
def PState.logI (st : PState) (m : String) : PState :=
  { st with log := st.log ++ [⟨LogLevel.info, m⟩] }

/-- Append a warning record to the log. -/
def PState.logW (st : PState) (m : String) : PState :=
  { st with log := st.log ++ [⟨LogLevel.warning, m⟩] }

/-- Append an error record to the log. -/
def PState.logE (st : PState) (m : String) : PState :=
  { st with log := st.log ++ [⟨LogLevel.err, m⟩] }

/-- Constant `Config.DUCKDB_PATH` from `src/config.py`. -/
def Config.DUCKDB_PATH : String := "local_data.duckdb"

/-- Python `str.lower()` restricted to the per-character case map. -/
def pyLower (s : String) : String := ⟨s.data.map Char.toLower⟩

/-- Python `str.upper()` restricted to the per-character case map. -/
def pyUpper (s : String) : String := ⟨s.data.map Char.toUpper⟩

/-- Python `pat in s` substring containment, on character lists. -/
def charsContain (pat : List Char) : List Char → Bool
  | [] => pat.isEmpty
  | c :: tl => pat.isPrefixOf (c :: tl) || charsContain pat tl

/-- The guard on line 90 of `data_pipeline.py`: `'LIMIT' in query.upper()`. -/
def hasLimitToken (query : String) : Bool :=
  charsContain "LIMIT".data (pyUpper query).data

/-- Python `query.rstrip(';')`: remove all trailing semicolons. -/
def rstripSemi (s : String) : String :=
  ⟨(s.data.reverse.dropWhile (fun c => c == ';')).reverse⟩

/-- Lines 89–91 of `data_pipeline.py`: append `LIMIT {limit}` to the query
unless the uppercased query already contains the substring `LIMIT`. -/
def applyLimit (query : String) (limit : Nat) : String :=
  if hasLimitToken query then query
  else rstripSemi query ++ " LIMIT " ++ toString limit

/-- Python `name.replace('-', '_').replace(' ', '_').replace('.', '_')`. -/
def cleanTableName (n : String) : String :=
  ⟨n.data.map (fun c => if c == '-' || c == ' ' || c == '.' then '_' else c)⟩

/-- Models `DataPipeline.connect_snowflake`: try a secure connection; on any failure
log a warning and retry once with `insecure_mode=True`; if that also fails,
log an error and return `False`. Returns the bool result and the new state. -/
def connect_snowflake (w : World) (st : PState) : Bool × PState :=
  match w.secureConnect with
  | none =>
    (true, { (st.logI "Successfully connected to Snowflake with SSL verification") with
              snowflakeConn := true })
  | some sslErr =>
    let st := (st.logW ("SSL connection failed: " ++ sslErr)).logI
      "Attempting connection with relaxed SSL settings..."
    match w.insecureConnect with
    | none =>
      (true, { (st.logI "Successfully connected to Snowflake with insecure mode") with
                snowflakeConn := true })
    | some e =>
      (false, st.logE ("Failed to connect to Snowflake: " ++ e))

/-- Models `DataPipeline.connect_duckdb`: open the file-backed store read-write. -/
def connect_duckdb (w : World) (st : PState) : Bool × PState :=
  match w.localConnect with
  | none =>
    (true, { (st.logI ("Successfully connected to DuckDB: " ++ Config.DUCKDB_PATH)) with
              duckdbConn := true })
  | some e =>
    (false, st.logE ("Failed to connect to DuckDB: " ++ e))

/-- The comprehension `[row[1] for row in rows]`: second column of each raw
`SHOW TABLES` row; `none` models the `IndexError` of a too-short row. -/
def secondColumns : List (List String) → Option (List String)
  | [] => some []
  | row :: rest =>
    match row.get? 1, secondColumns rest with
    | some name, some names => some (name :: names)
    | _, _ => none

/-- Models `DataPipeline.get_snowflake_tables`: list tables via `SHOW TABLES`; on any
failure (no connection, query error, malformed row) log an error and return
the empty list. -/
def get_snowflake_tables (w : World) (st : PState) : List String × PState :=
  if !st.snowflakeConn then
    ([], st.logE "Failed to get table list: Snowflake connection not established")
  else
    match w.showTables with
    | Except.error e => ([], st.logE ("Failed to get table list: " ++ e))
    | Except.ok rows =>
      match secondColumns rows with
      | none => ([], st.logE "Failed to get table list: list index out of range")
      | some tables =>
        (tables, st.logI ("Found " ++ toString tables.length ++ " tables in Snowflake"))

/-- Python `query[:100]`. -/
def takeChars (n : Nat) (s : String) : String := ⟨s.data.take n⟩

/-- Models `DataPipeline.read_snowflake_data`: add a `LIMIT` clause when absent,
execute, and materialize the fetched rows as a DataFrame; an empty fetch is a
valid empty frame; an execution error is logged and re-raised. -/
def read_snowflake_data (w : World) (query : String) (limit : Nat := 1000)
    (st : PState) : Except String DataFrame × PState :=
  if !st.snowflakeConn then
    (Except.error "Snowflake connection not established",
      st.logE "Failed to read from Snowflake: Snowflake connection not established")
  else
    let query := applyLimit query limit
    let st := st.logI ("Executing query: " ++ takeChars 100 query ++ "...")
    match w.runQuery query with
    | Except.error e =>
      (Except.error e, st.logE ("Failed to read from Snowflake: " ++ e))
    | Except.ok [] =>
      (Except.ok DataFrame.emptyDf, st.logW "Query returned no results")
    | Except.ok (r :: rs) =>
      let df := toDataFrame (r :: rs)
      (Except.ok df,
        st.logI ("Successfully read " ++ toString df.rows.length ++ " rows with "
          ++ toString df.columns.length ++ " columns from Snowflake"))

/-- Models `DataPipeline.write_to_duckdb`: refuse empty frames; otherwise drop the
(cleaned-name) target, stage the frame as `{name}_temp`, create the target
from the staging view, unregister it, then re-query `COUNT(*)` and log it.
Raises (models the `except ... raise`) on a missing connection or a failing
DuckDB statement. -/
def write_to_duckdb (w : World) (df : DataFrame) (table_name : String)
    (st : PState) : Except String Bool × PState :=
  if !st.duckdbConn then
    (Except.error "DuckDB connection not established",
      st.logE "Failed to write to DuckDB: DuckDB connection not established")
  else if df.isEmpty then
    (Except.ok false, st.logW "DataFrame is empty, skipping write")
  else
    match w.localExec with
    | some e => (Except.error e, st.logE ("Failed to write to DuckDB: " ++ e))
    | none =>
      let clean := cleanTableName table_name
      let s1 := st.store.dropTable clean
      let s2 := s1.registerView (clean ++ "_temp") df
      match s2.lookupView (clean ++ "_temp") with
      | none =>
        (Except.error "Catalog Error",
          st.logE "Failed to write to DuckDB: Catalog Error")
      | some staged =>
        let s3 := { s2 with tables := (clean, staged) :: s2.tables }
        let s4 := s3.unregisterView (clean ++ "_temp")
        match s4.countStar clean with
        | none =>
          (Except.error "Catalog Error",
            st.logE "Failed to write to DuckDB: Catalog Error")
        | some count =>
          (Except.ok true,
            { st with
              store := s4
              log := st.log ++ [⟨LogLevel.info,
                "Successfully wrote " ++ toString count
                  ++ " rows to DuckDB table: " ++ clean⟩] })

/-- Lines 160–176 of `run_pipeline`: decide the query text and the DuckDB
target table name from the optional explicit table and custom query,
discovering tables when neither is given. -/
def resolveTarget (w : World) (table_name custom_query : Option String)
    (st : PState) : Except String (String × String) × PState :=
  match custom_query with
  | some q => (Except.ok (q, "custom_query_result"), st)
  | none =>
    match table_name with
    | some t => (Except.ok ("SELECT * FROM " ++ t, pyLower t), st)
    | none =>
      let (tables, st) := get_snowflake_tables w st
      match tables with
      | [] => (Except.error "No tables found in Snowflake schema", st)
      | t :: _ =>
        (Except.ok ("SELECT * FROM " ++ t, pyLower t),
          st.logI ("Using first available table: " ++ t))

/-- The `try` body of `DataPipeline.run_pipeline`: connect both sides, resolve
the target, extract, and load; any stage failure raises. -/
def runBody (w : World) (table_name custom_query : Option String) (limit : Nat)
    (st : PState) : Except String (Option DataFrame) × PState :=
  let st := st.logI "=== Starting Data Pipeline ==="
  match connect_snowflake w st with
  | (false, st) => (Except.error "Could not connect to Snowflake", st)
  | (true, st) =>
    match connect_duckdb w st with
    | (false, st) => (Except.error "Could not connect to DuckDB", st)
    | (true, st) =>
      match resolveTarget w table_name custom_query st with
      | (Except.error e, st) => (Except.error e, st)
      | (Except.ok (query, target), st) =>
        let st := st.logI "Starting data extraction from Snowflake..."
        match read_snowflake_data w query limit st with
        | (Except.error e, st) => (Except.error e, st)
        | (Except.ok df, st) =>
          if df.isEmpty then
            (Except.ok none, st.logW "No data retrieved from Snowflake")
          else
            let st := st.logI "Starting data load to DuckDB..."
            match write_to_duckdb w df target st with
            | (Except.error e, st) => (Except.error e, st)
            | (Except.ok true, st) =>
              (Except.ok (some df), st.logI "=== Pipeline completed successfully! ===")
            | (Except.ok false, st) =>
              (Except.error "Failed to write data to DuckDB", st)

/-- Models `DataPipeline.cleanup`: close whichever connections are open, logging each
close; errors during close are swallowed. -/
def cleanup (st : PState) : PState :=
  let st :=
    if st.snowflakeConn then
      { (st.logI "Snowflake connection closed") with snowflakeConn := false }
    else st
  if st.duckdbConn then
    { (st.logI "DuckDB connection closed") with duckdbConn := false }
  else st

/-- Models `DataPipeline.run_pipeline`: run the body; on failure log
`Pipeline failed` and re-raise; in all cases run `cleanup` (the `finally`). -/
def run_pipeline (w : World) (table_name custom_query : Option String)
    (limit : Nat := 1000) (st : PState) : Except String (Option DataFrame) × PState :=
  match runBody w table_name custom_query limit st with
  | (Except.ok v, st) => (Except.ok v, cleanup st)
  | (Except.error e, st) =>
    (Except.error e, cleanup (st.logE ("Pipeline failed: " ++ e)))

/-!
Concrete worlds, states and frames used by the witness and counterexample
theorems below.
-/

def wNoop : World :=
  { secureConnect := none, insecureConnect := none, localConnect := none,
    showTables := Except.ok [], runQuery := fun _ => Except.ok [],
    localExec := none }

def stReady : PState := ⟨true, true, ⟨[], []⟩, []⟩

def dfOrders : DataFrame := ⟨["ID", "AMT"], [["1", "3.5"], ["2", "4.5"], ["3", "5.5"]]⟩

def wGood : World :=
  { secureConnect := none, insecureConnect := none, localConnect := none,
    showTables := Except.ok [["db", "ORDERS"]],
    runQuery := fun _ => Except.ok
      [[("ID", "1"), ("AMT", "3.5")], [("ID", "2"), ("AMT", "4.5")], [("ID", "3"), ("AMT", "5.5")]],
    localExec := none }

def st0 : PState := ⟨false, false, ⟨[], []⟩, []⟩

def wRelax : World :=
  { secureConnect := some "ssl fail", insecureConnect := none, localConnect := none,
    showTables := Except.ok [], runQuery := fun _ => Except.ok [[("ID", "1")]],
    localExec := none }

def wErr : World :=
  { secureConnect := none, insecureConnect := none, localConnect := none,
    showTables := Except.error "network timeout",
    runQuery := fun _ => Except.ok [], localExec := none }

def wConnFail : World :=
  { secureConnect := some "certificate verify failed",
    insecureConnect := some "handshake failure",
    localConnect := none, showTables := Except.ok [],
    runQuery := fun _ => Except.ok [], localExec := none }

def wExtractFail : World :=
  { secureConnect := none, insecureConnect := none, localConnect := none,
    showTables := Except.ok [],
    runQuery := fun _ => Except.error "SQL compilation error", localExec := none }

def wLoadFail : World :=
  { secureConnect := none, insecureConnect := none, localConnect := none,
    showTables := Except.ok [],
    runQuery := fun _ => Except.ok [[("ID", "1")]], localExec := some "disk full" }

/-!
Helper lemmas shared by the claim theorems.
-/

lemma ne_nil_isEmpty_false {α : Type} {l : List α} (h : l ≠ []) : l.isEmpty = false := by
  cases l with
  | nil => exact absurd rfl h
  | cons a t => rfl

lemma isEmpty_false_of (df : DataFrame) (hr : df.rows ≠ []) (hc : df.columns ≠ []) :
    df.isEmpty = false := by
  unfold DataFrame.isEmpty
  rw [ne_nil_isEmpty_false hr, ne_nil_isEmpty_false hc]
  rfl

lemma cleanup_flags (st : PState) :
    (cleanup st).snowflakeConn = false ∧ (cleanup st).duckdbConn = false
      ∧ (cleanup st).store = st.store := by
  unfold cleanup
  cases h1 : st.snowflakeConn <;> cases h2 : st.duckdbConn <;>
    simp [PState.logI, h1, h2]

lemma write_success (w : World) (df : DataFrame) (n : String) (st : PState)
    (hconn : st.duckdbConn = true) (hx : w.localExec = none)
    (hne : df.isEmpty = false) :
    write_to_duckdb w df n st =
      (Except.ok true,
        { st with
          store := ⟨(cleanTableName n, df)
                      :: st.store.tables.filter (fun p => p.1 != cleanTableName n),
                    st.store.views.filter (fun p => p.1 != cleanTableName n ++ "_temp")⟩
          log := st.log ++ [⟨LogLevel.info,
            "Successfully wrote " ++ toString df.rows.length
              ++ " rows to DuckDB table: " ++ cleanTableName n⟩] }) := by
  unfold write_to_duckdb
  rw [hconn, hne, hx]
  simp [DuckStore.dropTable, DuckStore.registerView, DuckStore.lookupView,
    DuckStore.unregisterView, DuckStore.countStar, DuckStore.lookupTable,
    List.lookup]

lemma run_table_success (w : World) (t : String) (limit : Nat) (st : PState)
    (r : Row) (rs : List Row)
    (hs : w.secureConnect = none) (hl : w.localConnect = none)
    (hx : w.localExec = none)
    (hq : w.runQuery (applyLimit ("SELECT * FROM " ++ t) limit) = Except.ok (r :: rs))
    (hr : r ≠ []) :
    (run_pipeline w (some t) none limit st).1 = Except.ok (some (toDataFrame (r :: rs)))
    ∧ (run_pipeline w (some t) none limit st).2.store.tables
        = (cleanTableName (pyLower t), toDataFrame (r :: rs))
          :: st.store.tables.filter (fun p => p.1 != cleanTableName (pyLower t)) := by
  have hie : (toDataFrame (r :: rs)).isEmpty = false := by
    cases r with
    | nil => exact absurd rfl hr
    | cons a tl => rfl
  simp [run_pipeline, runBody, connect_snowflake, connect_duckdb, resolveTarget,
    read_snowflake_data, write_to_duckdb, cleanup, PState.logI, PState.logW,
    PState.logE, DuckStore.dropTable, DuckStore.registerView,
    DuckStore.unregisterView, DuckStore.lookupView, DuckStore.lookupTable,
    DuckStore.countStar, List.lookup, hs, hl, hx, hq, hie]

lemma run_custom_success (w : World) (q : String) (limit : Nat) (st : PState)
    (r : Row) (rs : List Row)
    (hs : w.secureConnect = none) (hl : w.localConnect = none)
    (hx : w.localExec = none)
    (hq : w.runQuery (applyLimit q limit) = Except.ok (r :: rs))
    (hr : r ≠ []) :
    (run_pipeline w none (some q) limit st).1 = Except.ok (some (toDataFrame (r :: rs))) := by
  have hie : (toDataFrame (r :: rs)).isEmpty = false := by
    cases r with
    | nil => exact absurd rfl hr
    | cons a tl => rfl
  simp [run_pipeline, runBody, connect_snowflake, connect_duckdb, resolveTarget,
    read_snowflake_data, write_to_duckdb, cleanup, PState.logI, PState.logW,
    PState.logE, DuckStore.dropTable, DuckStore.registerView,
    DuckStore.unregisterView, DuckStore.lookupView, DuckStore.lookupTable,
    DuckStore.countStar, List.lookup, hs, hl, hx, hq, hie]

lemma run_custom_relaxed_success (w : World) (q : String) (limit : Nat) (st : PState)
    (e : String) (r : Row) (rs : List Row)
    (hs : w.secureConnect = some e) (hi : w.insecureConnect = none)
    (hl : w.localConnect = none) (hx : w.localExec = none)
    (hq : w.runQuery (applyLimit q limit) = Except.ok (r :: rs))
    (hr : r ≠ []) :
    (run_pipeline w none (some q) limit st).1 = Except.ok (some (toDataFrame (r :: rs)))
    ∧ (⟨LogLevel.warning, "SSL connection failed: " ++ e⟩ : LogEntry)
        ∈ (run_pipeline w none (some q) limit st).2.log := by
  have hie : (toDataFrame (r :: rs)).isEmpty = false := by
    cases r with
    | nil => exact absurd rfl hr
    | cons a tl => rfl
  simp [run_pipeline, runBody, connect_snowflake, connect_duckdb, resolveTarget,
    read_snowflake_data, write_to_duckdb, cleanup, PState.logI, PState.logW,
    PState.logE, DuckStore.dropTable, DuckStore.registerView,
    DuckStore.unregisterView, DuckStore.lookupView, DuckStore.lookupTable,
    DuckStore.countStar, List.lookup, hs, hi, hl, hx, hq, hie]

/-!
Claim theorems, witnesses and counterexamples.
-/

/-- C1: for every result set with at least one row (and a column schema) and
every table name, `write_to_duckdb` re-queries `COUNT(*)` on the target table
after creating it; the verified count it reports as the outcome equals the
number of rows of the written result set exactly, and the call succeeds. -/
theorem C1_write_verified_count (w : World) (df : DataFrame) (n : String) (st : PState)
    (hconn : st.duckdbConn = true) (hx : w.localExec = none)
    (hr : df.rows ≠ []) (hc : df.columns ≠ []) :
    (write_to_duckdb w df n st).1 = Except.ok true
    ∧ (write_to_duckdb w df n st).2.store.countStar (cleanTableName n)
        = some df.rows.length
    ∧ (write_to_duckdb w df n st).2.log
        = st.log ++ [⟨LogLevel.info,
            "Successfully wrote " ++ toString df.rows.length
              ++ " rows to DuckDB table: " ++ cleanTableName n⟩] := by
  rw [write_success w df n st hconn hx (isEmpty_false_of df hr hc)]
  refine ⟨rfl, ?_, rfl⟩
  simp [DuckStore.countStar, DuckStore.lookupTable, List.lookup]

/-- Witness for C1 at a concrete frame of three rows. -/
theorem C1_witness :
    (write_to_duckdb wNoop dfOrders "ORDERS" stReady).1 = Except.ok true
    ∧ (write_to_duckdb wNoop dfOrders "ORDERS" stReady).2.store.countStar
        (cleanTableName "ORDERS") = some 3 := by
  have h := C1_write_verified_count wNoop dfOrders "ORDERS" stReady rfl rfl
    (by decide) (by decide)
  exact ⟨h.1, h.2.1⟩

/-- C2: writing a zero-row result set returns the failed outcome `false` and
leaves the store contents (tables and views) completely unchanged. -/
theorem C2_empty_write_refused (w : World) (df : DataFrame) (n : String) (st : PState)
    (hconn : st.duckdbConn = true) (hr : df.rows = []) :
    (write_to_duckdb w df n st).1 = Except.ok false
    ∧ (write_to_duckdb w df n st).2.store = st.store := by
  unfold write_to_duckdb
  rw [hconn]
  simp [DataFrame.isEmpty, hr, PState.logW]

/-- Witness for C2 at the empty frame. -/
theorem C2_witness :
    (write_to_duckdb wNoop DataFrame.emptyDf "ORDERS" stReady).1 = Except.ok false
    ∧ (write_to_duckdb wNoop DataFrame.emptyDf "ORDERS" stReady).2.store
        = stReady.store :=
  C2_empty_write_refused wNoop DataFrame.emptyDf "ORDERS" stReady rfl rfl

/-- C3: on every exit path of `run_pipeline` — normal completion or failure at
any stage — `cleanup` runs, so the returned state has both the Snowflake and
the DuckDB connection closed. -/
theorem C3_cleanup_every_exit (w : World) (table_name custom_query : Option String)
    (limit : Nat) (st : PState) :
    (run_pipeline w table_name custom_query limit st).2.snowflakeConn = false
    ∧ (run_pipeline w table_name custom_query limit st).2.duckdbConn = false := by
  unfold run_pipeline
  rcases h : runBody w table_name custom_query limit st with ⟨r, st'⟩
  cases r with
  | ok v => exact ⟨(cleanup_flags st').1, (cleanup_flags st').2.1⟩
  | error e =>
    exact ⟨(cleanup_flags _).1, (cleanup_flags _).2.1⟩

/-- C4 counterexample: when both Snowflake connect attempts raise, the error
the caller receives from `run_pipeline` is the orchestrator's generic
`Could not connect to Snowflake`, not either of the component's original
errors — so not every failing stage re-raises the original error unchanged. -/
theorem C4_counterexample :
    (run_pipeline wConnFail none (some "SELECT 1") 1000 st0).1
      = Except.error "Could not connect to Snowflake"
    ∧ "Could not connect to Snowflake" ≠ "certificate verify failed"
    ∧ "Could not connect to Snowflake" ≠ "handshake failure" :=
  ⟨rfl, by decide, by decide⟩

/-- C4 amended: extraction errors and load errors are re-raised to the caller
unchanged, so connection problems remain distinguishable from data problems;
but a connection-stage failure surfaces as the orchestrator's generic
stage message (the connector's own error is only logged), not as the
original error. -/
theorem C4_amended_propagation :
    (∀ w q limit st e, w.secureConnect = none → w.localConnect = none →
      w.runQuery (applyLimit q limit) = Except.error e →
      (run_pipeline w none (some q) limit st).1 = Except.error e)
    ∧ (∀ w q limit st e r rs, w.secureConnect = none → w.localConnect = none →
      w.localExec = some e →
      w.runQuery (applyLimit q limit) = Except.ok (r :: rs) → r ≠ [] →
      (run_pipeline w none (some q) limit st).1 = Except.error e)
    ∧ (∀ w q limit st e1 e2,
      w.secureConnect = some e1 → w.insecureConnect = some e2 →
      (run_pipeline w none (some q) limit st).1
        = Except.error "Could not connect to Snowflake") := by
  refine ⟨?_, ?_, ?_⟩
  · intro w q limit st e hs hl hq
    simp [run_pipeline, runBody, connect_snowflake, connect_duckdb,
      resolveTarget, read_snowflake_data, cleanup, PState.logI, PState.logW,
      PState.logE, hs, hl, hq]
  · intro w q limit st e r rs hs hl hx hq hr
    have hie : (toDataFrame (r :: rs)).isEmpty = false := by
      cases r with
      | nil => exact absurd rfl hr
      | cons a tl => rfl
    simp [run_pipeline, runBody, connect_snowflake, connect_duckdb,
      resolveTarget, read_snowflake_data, write_to_duckdb, cleanup,
      PState.logI, PState.logW, PState.logE, hs, hl, hx, hq, hie]
  · intro w q limit st e1 e2 h1 h2
    simp [run_pipeline, runBody, connect_snowflake, cleanup, PState.logI,
      PState.logW, PState.logE, h1, h2]

/-- Witness for the amended C4: a failing extraction and a failing load each
re-raise their own message, and a double connection failure raises the
generic stage message. -/
theorem C4_amended_witness :
    (run_pipeline wExtractFail none (some "SELECT 1") 1000 st0).1
      = Except.error "SQL compilation error"
    ∧ (run_pipeline wLoadFail none (some "SELECT 1") 1000 st0).1
      = Except.error "disk full"
    ∧ (run_pipeline wConnFail none (some "SELECT 1") 1000 st0).1
      = Except.error "Could not connect to Snowflake" := by
  have h1 := C4_amended_propagation.1 wExtractFail "SELECT 1" 1000 st0
    "SQL compilation error" rfl rfl rfl
  have h2 := C4_amended_propagation.2.1 wLoadFail "SELECT 1" 1000 st0
    "disk full" [("ID", "1")] [] rfl rfl rfl rfl (by decide)
  have h3 := C4_amended_propagation.2.2 wConnFail "SELECT 1" 1000 st0
    "certificate verify failed" "handshake failure" rfl rfl
  exact ⟨h1, h2, h3⟩

/-- C5: the extractor appends `LIMIT {limit}` to the (semicolon-stripped)
query exactly when the uppercased query text does not already contain the
substring `LIMIT` (the case-insensitive check of line 90), and a query that
already contains a LIMIT clause is left unaltered. -/
theorem C5_limit_appended_iff (query : String) (limit : Nat) :
    (hasLimitToken query = false →
      applyLimit query limit = rstripSemi query ++ " LIMIT " ++ toString limit)
    ∧ (hasLimitToken query = true → applyLimit query limit = query) := by
  constructor <;> intro h <;> simp [applyLimit, h]

/-- Witness for C5 on the spec's two example queries with limit 50. -/
theorem C5_witness :
    applyLimit "SELECT * FROM T" 50 = "SELECT * FROM T LIMIT 50"
    ∧ applyLimit "SELECT * FROM T LIMIT 10" 50 = "SELECT * FROM T LIMIT 10" := by
  constructor
  · rw [(C5_limit_appended_iff "SELECT * FROM T" 50).1 (by decide)]
    decide
  · exact (C5_limit_appended_iff "SELECT * FROM T LIMIT 10" 50).2 (by decide)

/-- C6: the connection manager attempts a secure connection first; on any
failure it logs a warning for the first attempt and retries exactly once in
relaxed mode; it returns failure exactly when both attempts fail; and when
the relaxed attempt succeeds a pipeline run proceeds to success. -/
theorem C6_secure_then_relaxed (w : World) (st : PState) :
    (w.secureConnect = none →
      connect_snowflake w st =
        (true, { (st.logI "Successfully connected to Snowflake with SSL verification") with
                  snowflakeConn := true }))
    ∧ (∀ e, w.secureConnect = some e → w.insecureConnect = none →
      connect_snowflake w st =
        (true, { (((st.logW ("SSL connection failed: " ++ e)).logI
            "Attempting connection with relaxed SSL settings...").logI
            "Successfully connected to Snowflake with insecure mode") with
            snowflakeConn := true }))
    ∧ (∀ e1 e2, w.secureConnect = some e1 → w.insecureConnect = some e2 →
      connect_snowflake w st =
        (false, ((st.logW ("SSL connection failed: " ++ e1)).logI
            "Attempting connection with relaxed SSL settings...").logE
            ("Failed to connect to Snowflake: " ++ e2)))
    ∧ ((connect_snowflake w st).1 = false ↔
        w.secureConnect ≠ none ∧ w.insecureConnect ≠ none)
    ∧ (∀ e q limit r rs, w.secureConnect = some e → w.insecureConnect = none →
        w.localConnect = none → w.localExec = none →
        w.runQuery (applyLimit q limit) = Except.ok (r :: rs) → r ≠ [] →
        (run_pipeline w none (some q) limit st).1
          = Except.ok (some (toDataFrame (r :: rs)))
        ∧ (⟨LogLevel.warning, "SSL connection failed: " ++ e⟩ : LogEntry)
            ∈ (run_pipeline w none (some q) limit st).2.log) := by
  refine ⟨?_, ?_, ?_, ?_, ?_⟩
  · intro h
    simp [connect_snowflake, h]
  · intro e h1 h2
    simp [connect_snowflake, h1, h2]
  · intro e1 e2 h1 h2
    simp [connect_snowflake, h1, h2]
  · rcases h1 : w.secureConnect with _ | e1 <;>
      rcases h2 : w.insecureConnect with _ | e2 <;>
        simp [connect_snowflake, h1, h2]
  · intro e q limit r rs h1 h2 h3 h4 h5 h6
    exact run_custom_relaxed_success w q limit st e r rs h1 h2 h3 h4 h5 h6

/-- Witness for C6: the secure attempt raises, the relaxed attempt succeeds,
and the run completes with the extracted frame while the warning is logged. -/
theorem C6_witness :
    (run_pipeline wRelax none (some "SELECT 1") 1000 st0).1
      = Except.ok (some (toDataFrame [[("ID", "1")]]))
    ∧ (⟨LogLevel.warning, "SSL connection failed: ssl fail"⟩ : LogEntry)
        ∈ (run_pipeline wRelax none (some "SELECT 1") 1000 st0).2.log := by
  have h := (C6_secure_then_relaxed wRelax st0).2.2.2.2 "ssl fail" "SELECT 1" 1000
    [("ID", "1")] [] rfl rfl rfl rfl rfl (by decide)
  exact ⟨h.1, h.2⟩

/-- C7: with neither an explicit table nor a custom query, an empty discovery
result makes the run fail with the no-tables error, leaving the store
untouched and logging exactly the listed records (in particular no
`Executing query` record: no extraction happens); a non-empty discovery picks
the first table in reported order, querying `SELECT * FROM` it with the
lowercased name as local target. -/
theorem C7_discovery_resolution (w : World) (st : PState) (limit : Nat)
    (tbls : List (List String)) (hst : w.showTables = Except.ok tbls) :
    (w.secureConnect = none → w.localConnect = none → secondColumns tbls = some [] →
      (run_pipeline w none none limit st).1
        = Except.error "No tables found in Snowflake schema"
      ∧ (run_pipeline w none none limit st).2.store = st.store
      ∧ (run_pipeline w none none limit st).2.log = st.log ++
          [⟨LogLevel.info, "=== Starting Data Pipeline ==="⟩,
           ⟨LogLevel.info, "Successfully connected to Snowflake with SSL verification"⟩,
           ⟨LogLevel.info, "Successfully connected to DuckDB: " ++ Config.DUCKDB_PATH⟩,
           ⟨LogLevel.info, "Found 0 tables in Snowflake"⟩,
           ⟨LogLevel.err, "Pipeline failed: No tables found in Snowflake schema"⟩,
           ⟨LogLevel.info, "Snowflake connection closed"⟩,
           ⟨LogLevel.info, "DuckDB connection closed"⟩])
    ∧ (∀ t ts, st.snowflakeConn = true → secondColumns tbls = some (t :: ts) →
      (resolveTarget w none none st).1
        = Except.ok ("SELECT * FROM " ++ t, pyLower t)) := by
  constructor
  · intro hs hl h0
    simp [run_pipeline, runBody, connect_snowflake, connect_duckdb, resolveTarget,
      get_snowflake_tables, cleanup, PState.logI, PState.logW, PState.logE,
      hs, hl, hst, h0]
    rfl
  · intro t ts hconn hsec
    simp [resolveTarget, get_snowflake_tables, hconn, hst, hsec, PState.logI,
      PState.logE]

/-- Witness for C7: an empty schema discovery fails with the no-tables error
and an untouched store, while a discovery reporting `ORDERS` first resolves
to querying it with lowercased local target. -/
theorem C7_witness :
    (run_pipeline wNoop none none 1000 st0).1
      = Except.error "No tables found in Snowflake schema"
    ∧ (run_pipeline wNoop none none 1000 st0).2.store = st0.store
    ∧ (resolveTarget wGood none none stReady).1
        = Except.ok ("SELECT * FROM ORDERS", pyLower "ORDERS") := by
  have hA := (C7_discovery_resolution wNoop st0 1000 [] rfl).1 rfl rfl rfl
  have hB := (C7_discovery_resolution wGood stReady 1000 [["db", "ORDERS"]] rfl).2
    "ORDERS" [] rfl rfl
  exact ⟨hA.1, hA.2.1, hB⟩

/-- C8: running the pipeline twice with the same arguments against an
unchanged source yields the same result set both times, and the second run
replaces the first run's target table, so the target's `COUNT(*)` after the
second run equals the single-run row count (not twice it). -/
theorem C8_rerun_replaces (w : World) (t : String) (limit : Nat) (st : PState)
    (r : Row) (rs : List Row)
    (hs : w.secureConnect = none) (hl : w.localConnect = none)
    (hx : w.localExec = none)
    (hq : w.runQuery (applyLimit ("SELECT * FROM " ++ t) limit) = Except.ok (r :: rs))
    (hr : r ≠ []) :
    (run_pipeline w (some t) none limit st).1 = Except.ok (some (toDataFrame (r :: rs)))
    ∧ (run_pipeline w (some t) none limit
        (run_pipeline w (some t) none limit st).2).1
        = Except.ok (some (toDataFrame (r :: rs)))
    ∧ (run_pipeline w (some t) none limit
        (run_pipeline w (some t) none limit st).2).2.store.countStar
        (cleanTableName (pyLower t)) = some (toDataFrame (r :: rs)).rows.length := by
  obtain ⟨h1, _⟩ := run_table_success w t limit st r rs hs hl hx hq hr
  obtain ⟨h2, h2s⟩ := run_table_success w t limit
    (run_pipeline w (some t) none limit st).2 r rs hs hl hx hq hr
  refine ⟨h1, h2, ?_⟩
  simp [DuckStore.countStar, DuckStore.lookupTable, h2s, List.lookup]

/-- Witness for C8: the three-row ORDERS table run twice ends with exactly
three rows in table `orders`. -/
theorem C8_witness :
    (run_pipeline wGood (some "ORDERS") none 1000 st0).1 = Except.ok (some dfOrders)
    ∧ (run_pipeline wGood (some "ORDERS") none 1000
        (run_pipeline wGood (some "ORDERS") none 1000 st0).2).1
        = Except.ok (some dfOrders)
    ∧ (run_pipeline wGood (some "ORDERS") none 1000
        (run_pipeline wGood (some "ORDERS") none 1000 st0).2).2.store.countStar
        (cleanTableName (pyLower "ORDERS")) = some 3 := by
  have h := C8_rerun_replaces wGood "ORDERS" 1000 st0
    [("ID", "1"), ("AMT", "3.5")] [[("ID", "2"), ("AMT", "4.5")], [("ID", "3"), ("AMT", "5.5")]]
    rfl rfl rfl rfl (by decide)
  exact ⟨h.1, h.2.1, h.2.2⟩

/-- C9 counterexample: a run whose extraction yields zero rows completes
without error but returns `none`, not the (empty) extracted result set. -/
theorem C9_counterexample :
    (run_pipeline wNoop none (some "SELECT * FROM EMPTY_TBL") 1000 st0).1
      = Except.ok none
    ∧ (Except.ok none : Except String (Option DataFrame))
        ≠ Except.ok (some DataFrame.emptyDf) :=
  ⟨rfl, by simp⟩

/-- C9 amended: an empty extraction is a valid, non-error outcome of the
extractor (an empty frame, no exception), and a run whose extraction yields
zero rows completes without error — but it returns `none` and skips the load
(store unchanged); only runs with a non-empty extraction return the
extracted result set. -/
theorem C9_amended_empty_run :
    (∀ w q limit st, st.snowflakeConn = true →
      w.runQuery (applyLimit q limit) = Except.ok [] →
      (read_snowflake_data w q limit st).1 = Except.ok DataFrame.emptyDf)
    ∧ (∀ w q limit st, w.secureConnect = none → w.localConnect = none →
      w.runQuery (applyLimit q limit) = Except.ok [] →
      (run_pipeline w none (some q) limit st).1 = Except.ok none
      ∧ (run_pipeline w none (some q) limit st).2.store = st.store)
    ∧ (∀ w q limit st r rs, w.secureConnect = none → w.localConnect = none →
      w.localExec = none →
      w.runQuery (applyLimit q limit) = Except.ok (r :: rs) → r ≠ [] →
      (run_pipeline w none (some q) limit st).1
        = Except.ok (some (toDataFrame (r :: rs)))) := by
  refine ⟨?_, ?_, ?_⟩
  · intro w q limit st hconn hq
    simp [read_snowflake_data, hconn, hq, PState.logI, PState.logW, PState.logE]
  · intro w q limit st hs hl hq
    simp [run_pipeline, runBody, connect_snowflake, connect_duckdb,
      resolveTarget, read_snowflake_data, cleanup, PState.logI, PState.logW,
      PState.logE, hs, hl, hq, DataFrame.isEmpty, DataFrame.emptyDf]
  · intro w q limit st r rs hs hl hx hq hr
    exact run_custom_success w q limit st r rs hs hl hx hq hr

/-- Witness for the amended C9: an all-empty source gives a clean `none` run
with untouched store; the three-row source returns its frame. -/
theorem C9_amended_witness :
    (run_pipeline wNoop none (some "SELECT 1") 1000 st0).1 = Except.ok none
    ∧ (run_pipeline wNoop none (some "SELECT 1") 1000 st0).2.store = st0.store
    ∧ (run_pipeline wGood none (some "SELECT 1") 1000 st0).1
        = Except.ok (some dfOrders) := by
  have h2 := C9_amended_empty_run.2.1 wNoop "SELECT 1" 1000 st0 rfl rfl rfl
  have h3 := C9_amended_empty_run.2.2 wGood "SELECT 1" 1000 st0
    [("ID", "1"), ("AMT", "3.5")] [[("ID", "2"), ("AMT", "4.5")], [("ID", "3"), ("AMT", "5.5")]]
    rfl rfl rfl rfl (by decide)
  exact ⟨h2.1, h2.2, h3⟩

/-- C10: table discovery is total: with no established connection, with a
failing discovery query, or with a malformed discovery row it returns the
empty list instead of propagating the error; consequently the pipeline
reports the same no-tables failure for a discovery error as for a genuinely
empty schema. -/
theorem C10_discovery_total (w : World) (st : PState) :
    (st.snowflakeConn = false → (get_snowflake_tables w st).1 = [])
    ∧ (∀ e, w.showTables = Except.error e → (get_snowflake_tables w st).1 = [])
    ∧ (∀ rows, w.showTables = Except.ok rows → secondColumns rows = none →
        (get_snowflake_tables w st).1 = [])
    ∧ (∀ w1 w2 st1 st2 limit e,
        w1.secureConnect = none → w1.localConnect = none →
        w1.showTables = Except.error e →
        w2.secureConnect = none → w2.localConnect = none →
        w2.showTables = Except.ok [] →
        (run_pipeline w1 none none limit st1).1
          = Except.error "No tables found in Snowflake schema"
        ∧ (run_pipeline w2 none none limit st2).1
          = Except.error "No tables found in Snowflake schema") := by
  refine ⟨?_, ?_, ?_, ?_⟩
  · intro h
    simp [get_snowflake_tables, h, PState.logE]
  · intro e he
    cases hc : st.snowflakeConn <;>
      simp [get_snowflake_tables, hc, he, PState.logE]
  · intro rows hr hsec
    cases hc : st.snowflakeConn <;>
      simp [get_snowflake_tables, hc, hr, hsec, PState.logE]
  · intro w1 w2 st1 st2 limit e h1s h1l h1t h2s h2l h2t
    constructor
    · simp [run_pipeline, runBody, connect_snowflake, connect_duckdb,
        resolveTarget, get_snowflake_tables, cleanup, PState.logI, PState.logW,
        PState.logE, h1s, h1l, h1t]
    · simp [run_pipeline, runBody, connect_snowflake, connect_duckdb,
        resolveTarget, get_snowflake_tables, secondColumns, cleanup,
        PState.logI, PState.logW, PState.logE, h2s, h2l, h2t]

/-- Witness for C10: a failing discovery yields `[]` and the same pipeline
failure as an empty schema. -/
theorem C10_witness :
    (get_snowflake_tables wErr stReady).1 = []
    ∧ (run_pipeline wErr none none 1000 st0).1
        = Except.error "No tables found in Snowflake schema"
    ∧ (run_pipeline wNoop none none 1000 st0).1
        = Except.error "No tables found in Snowflake schema" := by
  have ha := (C10_discovery_total wErr stReady).2.1 "network timeout" rfl
  have hd := (C10_discovery_total wErr stReady).2.2.2 wErr wNoop st0 st0 1000
    "network timeout" rfl rfl rfl rfl rfl rfl
  exact ⟨ha, hd.1, hd.2⟩
